import Mathlib

/-!
Shallow embedding of `lib/auth0verification.js`, a request-authentication
gate combining a legacy symmetric JWT scheme (express-jwt with a shared
secret) and a modern asymmetric scheme (per-kid public keys fetched from a
JWKS endpoint and cached).  JavaScript strings are Lean `String`s; absent
or `undefined` values are `Option.none`; JavaScript truthiness of strings
(`""` is falsy) is modelled explicitly.  External collaborators (the
`jsonwebtoken` decoder, Node's `Buffer` base64 conversion, the cache
backend and the JWKS client fetch) are inputs to the embedded functions,
so each theorem quantifies over their behaviour.
-/

/-- JavaScript truthiness of a string: the empty string is falsy. -/
def truthyStr (s : String) : Bool := s != ""

/-- JavaScript truthiness of a possibly-undefined string value. -/
def truthyOpt : Option String → Bool
  | some s => truthyStr s
  | none => false

/-- Constant `ERROR_NAME` from the source: the stable discriminator put on
every authentication error. -/
def ERROR_NAME : String := "UnauthorizedError"

/- ### Route exclusion (`getExcludedRoutes`, lines 14-37) -/

/-- A configured exclusion entry: either a plain string or a
`\x7burl, method\x7d` pair (the `url` is kept as its pattern source). -/
inductive ConfigRoute
  | str (s : String)
  | pair (url : String) (method : Option String)
deriving DecidableEq

/-- A compiled exclusion entry: a regular expression (source text plus the
flags passed to `new RegExp`) or a pair of a compiled url pattern and a
method. -/
inductive CompiledRoute
  | regex (source : String) (flags : String)
  | pair (urlSource : String) (urlFlags : String) (method : Option String)
deriving DecidableEq

/-- The four built-in operational paths the source always excludes. -/
def defaultExcludedRoutes : List String :=
  ["/livecheck", "/swagger", "/authtools/widget.js", "/authtools/connections.js"]

/-- lodash `_.union`: concatenation with duplicates removed.  (Which
duplicate occurrence is kept does not affect membership, which is all the
any-pattern-matches policy depends on.) -/
def lodashUnion (a b : List ConfigRoute) : List ConfigRoute := (a ++ b).dedup

/-- Compilation of one configured entry, as in the `_.map` of the source:
a plain string becomes `new RegExp(route, 'i')`; a pair gets its url
compiled with the `'i'` flag. -/
def compileRoute : ConfigRoute → CompiledRoute
  | .str s => .regex s "i"
  | .pair url method => .pair url "i" method

/-- `getExcludedRoutes` (lines 14-37): union the defaults with the
configured exclusions (`configuredExclusions || []`), compile each, and
append `new RegExp('^/$', 'ig')` so that the bare root path is excluded. -/
def getExcludedRoutes (configuredExclusions : Option (List ConfigRoute)) :
    List CompiledRoute :=
  let routesToExclude :=
    lodashUnion (defaultExcludedRoutes.map ConfigRoute.str) (configuredExclusions.getD [])
  let excludedRoutesRegex := routesToExclude.map compileRoute
  excludedRoutesRegex ++ [CompiledRoute.regex "^/$" "ig"]

/-- The regular-expression metacharacters of JavaScript. -/
def regexMeta : List Char :=
  ['\\', '^', '$', '.', '|', '?', '*', '+', '(', ')', '[', ']',
   Char.ofNat 123, Char.ofNat 125]

/-- A pattern source that contains no metacharacter, so that it denotes a
literal (sub)string search. -/
def isRegexLiteral (s : String) : Bool :=
  s.toList.all (fun c => !(regexMeta.contains c))

/-- Substring search: does `pat` occur contiguously anywhere in `s`? -/
def containsSeq (pat : List Char) : List Char → Bool
  | [] => pat.isPrefixOf []
  | c :: rest => pat.isPrefixOf (c :: rest) || containsSeq pat rest

/-- Case-insensitive substring containment: what an unanchored literal
pattern compiled with the `'i'` flag matches. -/
def ciContains (pat input : String) : Bool :=
  containsSeq (pat.toList.map Char.toLower) (input.toList.map Char.toLower)

/-- Matching of the regular-expression fragment this module builds:
case-insensitive (the `'i'` flag is always passed), with optional `^` and
`$` anchors around an otherwise literal core.  Unanchored patterns match
anywhere in the input, exactly-anchored patterns match only the whole
input. -/
def jsRegexTestLit (source input : String) : Bool :=
  let cs := source.toList
  let sa := cs.head? == some '^'
  let cs1 := if sa then cs.tail else cs
  let ea := cs1.getLast? == some '$'
  let core := if ea then cs1.dropLast else cs1
  let pat := core.map Char.toLower
  let inp := input.toList.map Char.toLower
  if sa && ea then pat == inp
  else if sa then pat.isPrefixOf inp
  else if ea then pat.isSuffixOf inp
  else containsSeq pat inp

/-- Modelled from the spec: the matching policy of the route-exclusion
matcher (the `express-unless` dependency, not part of this repository's
sources) — a path-only pattern matches on the path alone, a
`\x7bmethod, url\x7d` pattern requires the method to be equal and the path
to match. -/
def routeMatches (method path : String) : CompiledRoute → Bool
  | .regex src _flags => jsRegexTestLit src path
  | .pair url _flags m =>
    (match m with
     | some mm => mm == method
     | none => true) && jsRegexTestLit url path

/-- Modelled from the spec: a request is excluded iff ANY compiled pattern
matches (`express-unless` over the list built by `getExcludedRoutes`). -/
def isExcluded (patterns : List CompiledRoute) (method path : String) : Bool :=
  patterns.any (routeMatches method path)

/- ### Key resolution (`getAuthPublicKey`, lines 39-58) -/

/-- Outcome of the JWKS client's `getSigningKeyAsync(kid)` call: a key
record with optional `publicKey` and `rsaPublicKey` fields, or a
rejection. -/
inductive SigningFetch
  | ok (publicKey : Option String) (rsaPublicKey : Option String)
  | err (e : String)
deriving DecidableEq

/-- The value a key resolution can fulfil with: raw key bytes (a Buffer),
or — on the `err => err` path — the error object itself. -/
inductive Resolved
  | keyBytes (bytes : String)
  | errObj (e : String)
deriving DecidableEq

/-- JavaScript objects are truthy; both a Buffer and an Error object pass
an `if (key)` test. -/
def truthyResolved : Resolved → Bool
  | .keyBytes _ => true
  | .errObj _ => true

/-- Outcome of a promise: fulfilled with a value, or rejected. -/
inductive PromiseResult (α : Type)
  | resolved (v : α)
  | rejected (e : String)
deriving DecidableEq

/-- Observable side effects of one key resolution. -/
inductive RKEvent
  | clientCreate (jwksUri : String) (cacheMaxEntries : Nat)
  | fetchKey (kid : String)
  | cacheSet (key value : String) (ttl : Nat)
deriving DecidableEq

/-- `getAuthPublicKey` (lines 39-58).  `cache` is the current content of
the shared key cache (`cache.get` is its lookup); `fetch` is the outcome
the JWKS client would produce for this kid; `b64encode`/`b64decode` are
Node's `Buffer` base64 conversions.  Returns the promise outcome together
with the list of side effects performed. -/
def getAuthPublicKey (b64encode b64decode : String → String) (jwksUrl : String)
    (cache : List (String × String)) (fetch : SigningFetch) (kid : String) :
    PromiseResult Resolved × List RKEvent :=
  let data := cache.lookup ("kid" ++ kid)
  if !truthyOpt data then
    -- cache miss: `jwksClient(\x7bcache: true, cacheMaxEntries: 5, jwksUri\x7d)`
    let ev0 := [RKEvent.clientCreate jwksUrl 5, RKEvent.fetchKey kid]
    match fetch with
    | .ok pk rpk =>
      -- `key.publicKey || key.rsaPublicKey`
      let signingKey := if truthyOpt pk then pk else rpk
      match signingKey with
      | some sk =>
        let encodedValue := b64encode sk
        (.resolved (.keyBytes sk),
         ev0 ++ [RKEvent.cacheSet ("kid" ++ kid) encodedValue 36000])
      | none =>
        -- `new Buffer(undefined)` throws inside the fulfilment handler,
        -- so the outer promise rejects
        (.rejected "TypeError", ev0)
    | .err e =>
      -- the second `.then` argument `err => err` FULFILS with the error
      (.resolved (.errObj e), ev0)
  else
    (.resolved (.keyBytes (b64decode (data.getD ""))), [])

/- ### The v2 secret callback (`v2JwtCheck`'s `secret`, lines 89-102) -/

/-- The decoded, unverified JWT header. -/
structure JwtHeader where
  alg : Option String
  kid : Option String
deriving DecidableEq

/-- How the callback completes: `done(null, key)` (the success
continuation) or `done(err)` (the failure continuation). -/
inductive DoneCall
  | doneKey (key : Resolved)
  | doneErr (e : String)
deriving DecidableEq

/-- The `secret` callback of the v2 express-jwt check (lines 89-102):
reject when the header or its kid is missing, otherwise resolve the key
and hand it to `done`. -/
def v2SecretCallback (b64encode b64decode : String → String) (jwksUrl : String)
    (cache : List (String × String)) (fetch : SigningFetch)
    (header : Option JwtHeader) : DoneCall :=
  match header with
  | none => .doneErr "JWT KID Not Found"
  | some h =>
    if !truthyOpt h.kid then .doneErr "JWT KID Not Found"
    else
      let kid := h.kid.getD ""
      match (getAuthPublicKey b64encode b64decode jwksUrl cache fetch kid).1 with
      | .resolved key =>
        if truthyResolved key then .doneKey key
        else .doneErr ("Public Key not found for KID " ++ kid)
      | .rejected e => .doneErr e

/- ### Configuration setup (`module.exports`, lines 62-107) -/

/-- The configuration object the module is initialised with (field names
as in the source; every field may be absent). -/
structure AuthConfig where
  secret : Option String
  enableV1 : Option Bool
  clientId : Option String
  audience : Option String
  domain : Option String
  jwksUrl : Option String
  excludedRoutes : Option (List ConfigRoute)

/-- Line 67: `_.get(config, 'enableV1', true)` — the flag defaults to
true when absent. -/
def AuthConfig.v1Enabled (c : AuthConfig) : Bool := c.enableV1.getD true

/-- Lines 69-82: `v1JwtCheck` is assigned (so the legacy verifier exists)
iff `config.secret` is truthy and `config.enableV1` holds. -/
def setupV1 (c : AuthConfig) : Bool := truthyOpt c.secret && c.v1Enabled

/-- Lines 84-107: `v2JwtCheck` is assigned (so the modern verifier
exists) iff `config.audience` and `config.jwksUrl` are both truthy. -/
def setupV2 (c : AuthConfig) : Bool := truthyOpt c.audience && truthyOpt c.jwksUrl

/- ### The authentication middleware (`jwtAuthentication`, lines 109-137) -/

/-- Result of `jwt.decode(token, \x7bcomplete: true\x7d)` on the token the
request carried: the library either throws or returns a value (`null` or
a decoded token, whose `header` field may itself be absent). -/
structure DecodedToken where
  header : Option JwtHeader
deriving DecidableEq

/-- Behaviour of the external unverified-decode step. -/
inductive DecodeOutcome
  | throws (e : String)
  | value (t : Option DecodedToken)
deriving DecidableEq

/-- A request's verified-identity object (`req.user`).  `id_token` is
two-level: `none` means the property was never assigned, `some v` means
the middleware assigned it the value `v` (`v = none` models assigning
JavaScript `undefined`). -/
structure UserObj where
  id_token : Option (Option String)
deriving DecidableEq

/-- The request fields this module reads: presence of the `req.headers`
object, the `Authorization` header value, and the verified identity. -/
structure Request where
  headersPresent : Bool
  authorization : Option String
  user : Option UserObj

/-- JavaScript `String.prototype.split` with a one-character separator,
written structurally so it evaluates by kernel reduction: splitting the
empty string gives `[""]`, every separator occurrence cuts. -/
def splitOnChar (sep : Char) : List Char → List (List Char)
  | [] => [[]]
  | c :: rest =>
    let r := splitOnChar sep rest
    if c == sep then [] :: r
    else
      match r with
      | [] => [[c]]
      | h :: t => (c :: h) :: t

/-- `authorization.split(' ')` as in the source. -/
def jsSplitSpace (s : String) : List String :=
  (splitOnChar ' ' s.toList).map String.mk

/-- Line 118 / line 149: `authorization.split(' ')[1]` — the second
space-separated token (the credential), absent when there is no space. -/
def splitCredential (a : String) : Option String := (jsSplitSpace a)[1]?

/-- Line 125: `decodedToken && decodedToken.header &&
decodedToken.header.alg === 'RS256'`. -/
def rs256Header : Option DecodedToken → Bool
  | some t =>
    match t.header with
    | some h => h.alg == some "RS256"
    | none => false
  | none => false

/-- Observable actions of one run of the `authentication` middleware:
`next(error)` calls (with the error's `name` and `message`), and calls of
the `v1JwtCheck` / `v2JwtCheck` variables.  A call event records the
dispatch itself; whether the called variable is actually defined is
`setupV1` / `setupV2` (see `raisesRawTypeError`). -/
inductive AuthEvent
  | nextError (name msg : String)
  | invokeV1
  | invokeV2
deriving DecidableEq

/-- Lines 129-136: the tail of the middleware shared by every path that
does not dispatch to v2 — call `v1JwtCheck` when `config.enableV1`,
otherwise reject with the fixed unsupported-token message. -/
def legacyBranch (cfg : AuthConfig) : List AuthEvent :=
  if cfg.v1Enabled then [.invokeV1]
  else [.nextError ERROR_NAME "The supplied token is not supported by any enabled auth"]

/-- `jwtAuthentication` (lines 109-137).  `decode` is the behaviour of
`jwt.decode` on the credential extracted from the header.  Note the
source's `catch` block calls `next(error)` WITHOUT returning, so control
falls through to the v1 branch afterwards. -/
def jwtAuthentication (cfg : AuthConfig) (decode : Option String → DecodeOutcome)
    (req : Request) : List AuthEvent :=
  if truthyOpt cfg.audience && req.headersPresent && truthyOpt req.authorization then
    match decode (splitCredential (req.authorization.getD "")) with
    | .throws e =>
      -- `catch`: `error.name = ERROR_NAME; next(error)` — then falls through
      .nextError ERROR_NAME e :: legacyBranch cfg
    | .value t =>
      if rs256Header t then [.invokeV2]
      else legacyBranch cfg
  else legacyBranch cfg

/-- Calling a JavaScript variable that was never assigned raises a raw
`TypeError`: true when the middleware dispatched to a check whose setup
condition did not hold. -/
def raisesRawTypeError (cfg : AuthConfig) (decode : Option String → DecodeOutcome)
    (req : Request) : Bool :=
  ((jwtAuthentication cfg decode req).contains .invokeV1 && !setupV1 cfg) ||
  ((jwtAuthentication cfg decode req).contains .invokeV2 && !setupV2 cfg)

/- ### The id_token middleware (lines 145-152) -/

/-- The `id_token` middleware (lines 145-152): when a verified identity
exists and the Authorization header's first space-separated token is
exactly `Bearer`, assign the credential to `req.user.id_token`. -/
def idTokenMiddleware (req : Request) : Request :=
  match req.user with
  | some u =>
    match req.authorization with
    | some a =>
      if truthyStr a && ((jsSplitSpace a).getD 0 "" == "Bearer") then
        { req with user := some { u with id_token := some (splitCredential a) } }
      else req
    | none => req
  | none => req

/-- The claim's condition: the Authorization header's scheme token (its
first space-separated token) is exactly `Bearer`. -/
def bearerScheme (req : Request) : Bool :=
  match req.authorization with
  | some a => truthyStr a && ((jsSplitSpace a).getD 0 "" == "Bearer")
  | none => false

/-- The claim's propagated value: the credential substring following the
scheme token. -/
def credentialOf (req : Request) : Option String :=
  match req.authorization with
  | some a => splitCredential a
  | none => none

/-- Statement of the claimed modern-dispatch condition, following the
spec's words: a modern audience is configured, the request carries an
Authorization header, the token decodes without error, and the decoded
header's `alg` is exactly `RS256`. -/
def modernDispatchSpec (cfg : AuthConfig) (decode : Option String → DecodeOutcome)
    (req : Request) : Bool :=
  truthyOpt cfg.audience && req.headersPresent && truthyOpt req.authorization &&
  (match decode (splitCredential (req.authorization.getD "")) with
   | .throws _ => false
   | .value t => rs256Header t)

/- ### Theorems -/

/-- C3: when the cache lookup misses and the underlying key-set fetch
fails, the resolution fulfils (does not reject) with the error object as
its value, so the caller's failure continuation is not taken: the secret
callback hands the error object to `done(null, key)`. -/
theorem getAuthPublicKey_fetch_failure_resolves
    (enc dec : String → String) (url : String) (cache : List (String × String))
    (kid e : String)
    (hmiss : truthyOpt (cache.lookup ("kid" ++ kid)) = false)
    (hkid : kid ≠ "") :
    (getAuthPublicKey enc dec url cache (.err e) kid).1 = .resolved (.errObj e) ∧
    v2SecretCallback enc dec url cache (.err e) (some ⟨some "RS256", some kid⟩) =
      .doneKey (.errObj e) := by
  have h1 : (getAuthPublicKey enc dec url cache (.err e) kid).1 = .resolved (.errObj e) := by
    simp [getAuthPublicKey, hmiss]
  refine ⟨h1, ?_⟩
  simp [v2SecretCallback, truthyOpt, truthyStr, hkid, h1, truthyResolved]

theorem getAuthPublicKey_fetch_failure_resolves_witness :
    truthyOpt (([] : List (String × String)).lookup ("kid" ++ "k1")) = false ∧
    ("k1" : String) ≠ "" ∧
    ((getAuthPublicKey id id "https://tenant/jwks" [] (.err "getaddrinfo ENOTFOUND") "k1").1 =
        .resolved (.errObj "getaddrinfo ENOTFOUND") ∧
      v2SecretCallback id id "https://tenant/jwks" [] (.err "getaddrinfo ENOTFOUND")
        (some ⟨some "RS256", some "k1"⟩) = .doneKey (.errObj "getaddrinfo ENOTFOUND")) :=
  ⟨rfl, by decide,
    getAuthPublicKey_fetch_failure_resolves id id "https://tenant/jwks" [] "k1"
      "getaddrinfo ENOTFOUND" rfl (by decide)⟩

/-- C4: when the cache lookup misses and the fetch succeeds, the
resolver picks `publicKey` when truthy and otherwise `rsaPublicKey`,
writes its base64 encoding under `"kid" ++ kid` with TTL 36000 seconds,
and fulfils with the raw key bytes. -/
theorem getAuthPublicKey_miss_fetch_success
    (enc dec : String → String) (url : String) (cache : List (String × String))
    (kid : String) (pk rpk : Option String)
    (hmiss : truthyOpt (cache.lookup ("kid" ++ kid)) = false)
    (hkey : (truthyOpt pk || truthyOpt rpk) = true) :
    getAuthPublicKey enc dec url cache (.ok pk rpk) kid =
      (.resolved (.keyBytes (if truthyOpt pk then pk.getD "" else rpk.getD "")),
       [.clientCreate url 5, .fetchKey kid,
        .cacheSet ("kid" ++ kid) (enc (if truthyOpt pk then pk.getD "" else rpk.getD "")) 36000]) := by
  cases hpk : truthyOpt pk with
  | true =>
    obtain ⟨s, rfl⟩ : ∃ s, pk = some s := by
      cases pk with
      | none => simp [truthyOpt] at hpk
      | some s => exact ⟨s, rfl⟩
    simp [getAuthPublicKey, hmiss, hpk]
  | false =>
    have hrpk : truthyOpt rpk = true := by
      rw [hpk] at hkey; simpa using hkey
    obtain ⟨s, rfl⟩ : ∃ s, rpk = some s := by
      cases rpk with
      | none => simp [truthyOpt] at hrpk
      | some s => exact ⟨s, rfl⟩
    simp [getAuthPublicKey, hmiss, hpk]

theorem getAuthPublicKey_miss_fetch_success_witness :
    truthyOpt (([] : List (String × String)).lookup ("kid" ++ "k2")) = false ∧
    (truthyOpt (some "PEMBYTES") || truthyOpt (none : Option String)) = true ∧
    getAuthPublicKey (fun s => "b64:" ++ s) id "https://tenant/jwks" []
        (.ok (some "PEMBYTES") none) "k2" =
      (.resolved (.keyBytes "PEMBYTES"),
       [.clientCreate "https://tenant/jwks" 5, .fetchKey "k2",
        .cacheSet "kidk2" "b64:PEMBYTES" 36000]) :=
  ⟨rfl, by decide,
    getAuthPublicKey_miss_fetch_success (fun s => "b64:" ++ s) id "https://tenant/jwks" []
      "k2" (some "PEMBYTES") none rfl (by decide)⟩

/-- C5: when the cache lookup returns a stored (truthy) value, the
resolver fulfils with the base64-decoding of that value and performs no
side effect at all: no client creation, no fetch, no cache write. -/
theorem getAuthPublicKey_cache_hit
    (enc dec : String → String) (url : String) (cache : List (String × String))
    (fetch : SigningFetch) (kid d : String)
    (hhit : cache.lookup ("kid" ++ kid) = some d) (hd : d ≠ "") :
    getAuthPublicKey enc dec url cache fetch kid = (.resolved (.keyBytes (dec d)), []) := by
  simp [getAuthPublicKey, hhit, truthyOpt, truthyStr, hd]

theorem getAuthPublicKey_cache_hit_witness :
    ([("kidk3", "UEVNQllURVM=")] : List (String × String)).lookup ("kid" ++ "k3") =
        some "UEVNQllURVM=" ∧
    ("UEVNQllURVM=" : String) ≠ "" ∧
    getAuthPublicKey id (fun _ => "PEMBYTES") "https://tenant/jwks"
        [("kidk3", "UEVNQllURVM=")] (.err "never used") "k3" =
      (.resolved (.keyBytes "PEMBYTES"), []) :=
  ⟨rfl, by decide,
    getAuthPublicKey_cache_hit id (fun _ => "PEMBYTES") "https://tenant/jwks"
      [("kidk3", "UEVNQllURVM=")] (.err "never used") "k3" "UEVNQllURVM=" rfl (by decide)⟩

/-- C1: on a request whose Authorization token makes the unverified
decode throw, the middleware emits the tagged rejection but then FALLS
THROUGH and also invokes the legacy verifier (the `catch` block does not
return after `next(error)`), contradicting the claim that it stops. -/
theorem jwtAuthentication_decode_throw_falls_through :
    jwtAuthentication
      { secret := some "legacy-shared-secret", enableV1 := none,
        clientId := some "client-1", audience := some "https://api.example.com",
        domain := some "tenant.auth0.com",
        jwksUrl := some "https://tenant.auth0.com/.well-known/jwks.json",
        excludedRoutes := none }
      (fun _ => .throws "JsonWebTokenError: jwt malformed")
      { headersPresent := true, authorization := some "Bearer not.a.jwt", user := none } =
      [.nextError "UnauthorizedError" "JsonWebTokenError: jwt malformed", .invokeV1] := by
  rfl

/-- Configuration for C9: everything absent, so `enableV1` defaults to
true while no secret is configured — accepted without error at
initialisation. -/
def c9Config : AuthConfig :=
  { secret := none, enableV1 := none, clientId := none, audience := none,
    domain := none, jwksUrl := none, excludedRoutes := none }

/-- Decode behaviour for C9 (never reached: no audience is configured). -/
def c9Decode : Option String → DecodeOutcome := fun _ => .value none

/-- A non-excluded request carrying a bearer token, for C9. -/
def c9Request : Request :=
  { headersPresent := true, authorization := some "Bearer a.b.c", user := none }

/-- C9: with the default configuration (legacy enabled by default, no
secret), the middleware dispatches to the never-assigned `v1JwtCheck`,
raising a raw TypeError, and emits no `UnauthorizedError`-tagged
rejection at all. -/
theorem jwtAuthentication_undefined_verifier :
    setupV1 c9Config = false ∧ c9Config.v1Enabled = true ∧
    jwtAuthentication c9Config c9Decode c9Request = [.invokeV1] ∧
    raisesRawTypeError c9Config c9Decode c9Request = true :=
  ⟨rfl, rfl, rfl, rfl⟩

/-- C2: the modern check is dispatched exactly when a modern audience is
configured, the request carries an Authorization header, the token
decodes without throwing, and the decoded header's `alg` is exactly
`RS256`; in every other case the legacy check is dispatched exactly when
`enableV1` holds. -/
theorem jwtAuthentication_scheme_selection
    (cfg : AuthConfig) (decode : Option String → DecodeOutcome) (req : Request) :
    ((AuthEvent.invokeV2 ∈ jwtAuthentication cfg decode req) ↔
      modernDispatchSpec cfg decode req = true) ∧
    ((AuthEvent.invokeV1 ∈ jwtAuthentication cfg decode req) ↔
      (modernDispatchSpec cfg decode req = false ∧ cfg.v1Enabled = true)) := by
  unfold jwtAuthentication modernDispatchSpec legacyBranch
  cases hA : (truthyOpt cfg.audience && req.headersPresent && truthyOpt req.authorization) with
  | false =>
    cases hV : cfg.v1Enabled <;> simp [hA, hV]
  | true =>
    cases hD : decode (splitCredential (req.authorization.getD "")) with
    | throws e =>
      cases hV : cfg.v1Enabled <;> simp [hA, hD, hV]
    | value t =>
      cases hR : rs256Header t with
      | true => simp [hA, hD, hR]
      | false => cases hV : cfg.v1Enabled <;> simp [hA, hD, hR, hV]

/-- C8: whenever the legacy scheme is disabled and the modern check was
not dispatched, the middleware emits a rejection named
`UnauthorizedError` with the fixed unsupported-token message. -/
theorem jwtAuthentication_no_scheme_rejects
    (cfg : AuthConfig) (decode : Option String → DecodeOutcome) (req : Request)
    (hv1 : cfg.v1Enabled = false)
    (hnov2 : AuthEvent.invokeV2 ∉ jwtAuthentication cfg decode req) :
    AuthEvent.nextError "UnauthorizedError"
        "The supplied token is not supported by any enabled auth"
      ∈ jwtAuthentication cfg decode req := by
  unfold jwtAuthentication legacyBranch at *
  cases hA : (truthyOpt cfg.audience && req.headersPresent && truthyOpt req.authorization) with
  | false => simp [hA, hv1, ERROR_NAME]
  | true =>
    cases hD : decode (splitCredential (req.authorization.getD "")) with
    | throws e => simp [hA, hD, hv1, ERROR_NAME]
    | value t =>
      cases hR : rs256Header t with
      | true =>
        rw [hA, hD] at hnov2
        simp [hR] at hnov2
      | false => simp [hA, hD, hR, hv1, ERROR_NAME]

/-- Configuration for the C8 witness: legacy disabled, modern audience
configured. -/
def c8Config : AuthConfig :=
  { secret := some "legacy-shared-secret", enableV1 := some false,
    clientId := some "client-1", audience := some "https://api.example.com",
    domain := some "tenant.auth0.com",
    jwksUrl := some "https://tenant.auth0.com/.well-known/jwks.json",
    excludedRoutes := none }

/-- Decode behaviour for the C8 witness: an HS256 token. -/
def c8Decode : Option String → DecodeOutcome :=
  fun _ => .value (some { header := some { alg := some "HS256", kid := none } })

/-- Request for the C8 witness. -/
def c8Request : Request :=
  { headersPresent := true, authorization := some "Bearer h.s.t", user := none }

theorem jwtAuthentication_no_scheme_rejects_witness :
    c8Config.v1Enabled = false ∧
    AuthEvent.invokeV2 ∉ jwtAuthentication c8Config c8Decode c8Request ∧
    AuthEvent.nextError "UnauthorizedError"
        "The supplied token is not supported by any enabled auth"
      ∈ jwtAuthentication c8Config c8Decode c8Request :=
  ⟨rfl, by decide,
    jwtAuthentication_no_scheme_rejects c8Config c8Decode c8Request rfl (by decide)⟩

/-- A character absent from a list is not its head. -/
lemma head_beq_false_of_not_mem {l : List Char} {a : Char} (h : a ∉ l) :
    (l.head? == some a) = false := by
  cases l with
  | nil => rfl
  | cons c t =>
    simp only [List.head?, beq_eq_false_iff_ne, ne_eq, Option.some.injEq]
    intro hc
    exact h (hc ▸ List.mem_cons_self c t)

/-- A character absent from a list is not its last element. -/
lemma getLast_beq_false_of_not_mem {l : List Char} {a : Char} (h : a ∉ l) :
    (l.getLast? == some a) = false := by
  cases hg : l.getLast? with
  | none => rfl
  | some c =>
    obtain ⟨l', rfl⟩ := List.getLast?_eq_some_iff.mp hg
    simp only [beq_eq_false_iff_ne, ne_eq, Option.some.injEq]
    intro hc
    subst hc
    exact h (List.mem_append_right l' (List.mem_singleton.mpr rfl))

/-- On a metacharacter-free pattern source, the compiled regular
expression performs a plain case-insensitive substring search. -/
lemma jsRegexTestLit_of_literal (s path : String) (h : isRegexLiteral s = true) :
    jsRegexTestLit s path = ciContains s path := by
  have hmem : ∀ c ∈ s.toList, c ∉ regexMeta := by
    intro c hc hin
    have hall := List.all_eq_true.mp h c hc
    have hc2 : regexMeta.contains c = true := List.elem_eq_true_of_mem hin
    rw [hc2] at hall
    simp at hall
  have h1 : '^' ∉ s.toList := fun hin => hmem _ hin (by decide)
  have h2 : '$' ∉ s.toList := fun hin => hmem _ hin (by decide)
  unfold jsRegexTestLit ciContains
  simp only [head_beq_false_of_not_mem h1, Bool.false_and, if_false, ite_false,
    Bool.false_eq_true]
  simp only [getLast_beq_false_of_not_mem h2, if_false, ite_false, Bool.false_eq_true]

/-- C6: for every configuration and method, the root path is excluded —
and every evaluation in a run of `n` consecutive evaluations of the same
compiled pattern list yields true — because the appended `^/$` pattern
matches exactly the root. -/
theorem isExcluded_root (configured : Option (List ConfigRoute)) (method : String)
    (n : Nat) :
    isExcluded (getExcludedRoutes configured) method "/" = true ∧
    List.replicate n (isExcluded (getExcludedRoutes configured) method "/") =
      List.replicate n true := by
  have h : isExcluded (getExcludedRoutes configured) method "/" = true := by
    apply List.any_eq_true.mpr
    refine ⟨CompiledRoute.regex "^/$" "ig", ?_, ?_⟩
    · unfold getExcludedRoutes
      simp
    · rfl
  exact ⟨h, by rw [h]⟩

/-- C10: every plain-string exclusion pattern (configured or built-in)
is compiled into an unanchored case-insensitive regular expression, so
any request whose path contains the pattern anywhere as a substring
(case-insensitively) is excluded, for every method. -/
theorem isExcluded_plain_string_substring
    (configured : List ConfigRoute) (s method path : String)
    (hsrc : ConfigRoute.str s ∈ configured ∨ s ∈ defaultExcludedRoutes)
    (hlit : isRegexLiteral s = true)
    (hsub : ciContains s path = true) :
    CompiledRoute.regex s "i" ∈ getExcludedRoutes (some configured) ∧
    isExcluded (getExcludedRoutes (some configured)) method path = true := by
  have hmem : ConfigRoute.str s ∈
      lodashUnion (defaultExcludedRoutes.map ConfigRoute.str) ((some configured).getD []) := by
    unfold lodashUnion
    rw [List.mem_dedup, List.mem_append]
    cases hsrc with
    | inl h => exact Or.inr h
    | inr h => exact Or.inl (List.mem_map_of_mem ConfigRoute.str h)
  have hcomp : CompiledRoute.regex s "i" ∈ getExcludedRoutes (some configured) := by
    unfold getExcludedRoutes
    refine List.mem_append_left _ ?_
    exact List.mem_map_of_mem compileRoute hmem
  refine ⟨hcomp, ?_⟩
  apply List.any_eq_true.mpr
  refine ⟨CompiledRoute.regex s "i", hcomp, ?_⟩
  show jsRegexTestLit s path = true
  rw [jsRegexTestLit_of_literal s path hlit]
  exact hsub

theorem isExcluded_plain_string_substring_witness :
    (ConfigRoute.str "/internal" ∈ [ConfigRoute.str "/internal"] ∨
      ("/internal" : String) ∈ defaultExcludedRoutes) ∧
    isRegexLiteral "/internal" = true ∧
    ciContains "/internal" "/api/INTERNAL/status" = true ∧
    (CompiledRoute.regex "/internal" "i" ∈ getExcludedRoutes (some [ConfigRoute.str "/internal"]) ∧
     isExcluded (getExcludedRoutes (some [ConfigRoute.str "/internal"])) "GET"
        "/api/INTERNAL/status" = true) :=
  ⟨Or.inl (List.mem_singleton.mpr rfl), by decide, by decide,
    isExcluded_plain_string_substring [ConfigRoute.str "/internal"] "/internal" "GET"
      "/api/INTERNAL/status" (Or.inl (List.mem_singleton.mpr rfl)) (by decide) (by decide)⟩

/-- C7: the propagated-token field ends up set exactly when a verified
identity exists and the header's scheme token is exactly `Bearer`, and
then it holds the credential substring following the scheme token. -/
theorem idTokenMiddleware_propagation (req : Request)
    (hfresh : ∀ u, req.user = some u → u.id_token = none) :
    ((idTokenMiddleware req).user.bind UserObj.id_token) =
      (if req.user.isSome && bearerScheme req then some (credentialOf req) else none) := by
  obtain ⟨hp, auth, user⟩ := req
  unfold idTokenMiddleware bearerScheme credentialOf
  cases user with
  | none => simp
  | some u =>
    have hid : u.id_token = none := hfresh u rfl
    cases auth with
    | none => simp [hid]
    | some a =>
      cases hb : (truthyStr a && ((jsSplitSpace a).getD 0 "" == "Bearer")) with
      | true =>
        rw [Bool.and_eq_true] at hb
        obtain ⟨h1, h2⟩ := hb
        simp at h2
        simp [h1, h2]
      | false =>
        rcases Bool.and_eq_false_iff.mp hb with h | h
        · simp [h, hid]
        · simp at h
          simp [h, hid]

/-- Request for the C7 witness: a verified identity without an
`id_token` field yet, and a well-formed bearer header. -/
def c7Request : Request :=
  { headersPresent := true, authorization := some "Bearer abc.def.ghi",
    user := some { id_token := none } }

theorem idTokenMiddleware_propagation_witness :
    (∀ u, c7Request.user = some u → u.id_token = none) ∧
    ((idTokenMiddleware c7Request).user.bind UserObj.id_token =
      (if c7Request.user.isSome && bearerScheme c7Request then some (credentialOf c7Request)
       else none)) ∧
    (idTokenMiddleware c7Request).user.bind UserObj.id_token = some (some "abc.def.ghi") := by
  have hfresh : ∀ u, c7Request.user = some u → u.id_token = none := by
    intro u hu
    have : UserObj.mk none = u := Option.some.inj hu
    rw [← this]
  exact ⟨hfresh, idTokenMiddleware_propagation c7Request hfresh, by decide⟩
